import Mathlib

/-!
Verification development for the deepfly-app repository: a Flask inference
server (`server.py`, legacy variant `server_old.py`) that scores uploaded
images as deepfakes with a MesoNet model, plus one-shot model download and
conversion scripts (`scripts/download_model.py`,
`old/scripts/download_model_h5.py`, `scripts/setup_tflite_model.py`).

The embedding is shallow: external collaborators (PIL's `Image.resize`, the
Keras model's forward pass, `Image.open` decoding, the HTTP transport, the
filesystem) are modelled as explicit parameters or explicit state, while the
repository's own control flow (request validation, preprocessing arithmetic,
score computation, download/convert control flow) is translated directly
from the Python source.
-/

/-! ## Inference server data model -/

/-- Raw uploaded bytes. -/
abbrev Bytes := List ℕ

/-- A decoded RGB image: `Image.open(...).convert('RGB')` yields a
height × width raster with three 0..255 channel values per pixel.
`px row col chan` is the channel value. -/
structure RGBImage where
  height : ℕ
  width : ℕ
  px : ℕ → ℕ → ℕ → ℕ

/-- An all-black image: every channel value of every pixel is 0. -/
def blackImage (h w : ℕ) : RGBImage :=
  ⟨h, w, fun _ _ _ => 0⟩

/-- The preprocessed tensor: `batch → row → col → chan → value`.
After `np.expand_dims(image_array, axis=0)` the batch axis has extent 1. -/
abbrev Tensor := ℕ → ℕ → ℕ → ℕ → ℚ

/-- Models `np.array(image) / 255.0`: scale each 0..255 channel value to [0,1]. -/
def scaleTo01 (img : RGBImage) : ℕ → ℕ → ℕ → ℚ :=
  fun i j c => (img.px i j c : ℚ) / 255

/-- Models `image_array[..., ::-1]`: reverse the channel order (RGB → BGR), so
channel `c` of the result is channel `2 - c` of the input. -/
def reverseChannels (t : ℕ → ℕ → ℕ → ℚ) : ℕ → ℕ → ℕ → ℚ :=
  fun i j c => t i j (2 - c)

/-- Models `np.expand_dims(..., axis=0)`: add a leading batch axis of extent 1. -/
def expandDims (t : ℕ → ℕ → ℕ → ℚ) : Tensor :=
  fun _ i j c => t i j c

/-- Preprocessing of `server.py` (`predict`, the deployed server):
resize to 256×256 (delegated to PIL, passed in as `resize`), divide by 255,
reverse the channel order, add the batch axis. -/
def preprocess (resize : RGBImage → RGBImage) (img : RGBImage) : Tensor :=
  expandDims (reverseChannels (scaleTo01 (resize img)))

/-- Preprocessing of `server_old.py` (`predict`, the legacy server):
identical except that the channel order is not reversed. -/
def preprocessOld (resize : RGBImage → RGBImage) (img : RGBImage) : Tensor :=
  expandDims (scaleTo01 (resize img))

/-- Python's `int(...)` applied to a real value: truncation toward zero. -/
def intTrunc (q : ℚ) : ℤ :=
  if 0 ≤ q then ⌊q⌋ else ⌈q⌉

/-- Models `score = int(fake_probability * 100)` in both servers. -/
def computeScore (p : ℚ) : ℤ :=
  intTrunc (p * 100)

/-- A JSON value as used by the two handlers: integers, strings, and the
empty object (the `metrics` placeholder). -/
inductive JsonVal where
  | int (n : ℤ)
  | str (s : String)
  | emptyObj
deriving DecidableEq, Repr

/-- A Flask response: HTTP status code plus JSON object body (key/value
pairs in the order `jsonify` receives them). -/
structure HttpResponse where
  status : ℕ
  body : List (String × JsonVal)
deriving DecidableEq, Repr

/-- One part of the multipart form: `request.files['file']`. -/
structure FilePart where
  filename : String
  content : Bytes
deriving DecidableEq, Repr

/-- A POST /predict request: the `file` part when present
(`'file' in request.files`). -/
structure PredictRequest where
  filePart : Option FilePart
deriving DecidableEq, Repr

/-- The model handle: `model.predict(tensor)` returns a 2-D array of shape
(1, k); we model the single row `prediction[0]` as a list of rationals. -/
abbrev ModelHandle := Tensor → List ℚ

/-- Models `prediction[0][0]` as used by `server.py`: the first element of the
prediction row; an empty row raises an IndexError. -/
def firstPrediction (pred : List ℚ) : Except String ℚ :=
  match pred with
  | [] => .error "index 0 is out of bounds for axis 0 with size 0"
  | p :: _ => .ok p

/-- Output-arity dispatch of `server_old.py`: if `prediction.shape[1] == 2`
the second element is the fake probability, if it is 1 the single element
is, otherwise (unexpected format) `prediction[0][0]` is used. -/
def selectFakeProbability (pred : List ℚ) : Except String ℚ :=
  if pred.length = 2 then .ok (pred.getD 1 0)
  else if pred.length = 1 then .ok (pred.getD 0 0)
  else
    match pred with
    | [] => .error "index 0 is out of bounds for axis 0 with size 0"
    | p :: _ => .ok p

/-- The number of output units of the deployed architecture
(`create_meso4_model` in `server.py` ends in `Dense(1, activation='sigmoid')`),
so `model.predict` returns exactly one value per image. -/
def meso4OutputUnits : ℕ := 1

/-- The `/predict` handler of `server.py` (deployed server). `decode` models
`Image.open(io.BytesIO(...)).convert('RGB')` (raising = `.error msg`),
`resize` models `image.resize((256, 256))`, and `model` is the global model
handle (`None` = `none`). The checks appear in source order: model loaded,
`file` part present, filename non-empty; then decode, preprocess, predict,
score. Any exception in the `try` block becomes a 500 with the message. -/
def predict (decode : Bytes → Except String RGBImage)
    (resize : RGBImage → RGBImage) (model : Option ModelHandle)
    (req : PredictRequest) : HttpResponse :=
  match model with
  | none => ⟨500, [("error", .str "AI Model is not loaded! Server startup failed.")]⟩
  | some m =>
    match req.filePart with
    | none => ⟨400, [("error", .str "No file part in the request")]⟩
    | some fp =>
      if fp.filename = "" then
        ⟨400, [("error", .str "No file selected for uploading")]⟩
      else
        match decode fp.content with
        | .error e => ⟨500, [("error", .str e)]⟩
        | .ok img =>
          match firstPrediction (m (preprocess resize img)) with
          | .error e => ⟨500, [("error", .str e)]⟩
          | .ok p => ⟨200, [("score", .int (computeScore p)), ("metrics", .emptyObj)]⟩

/-- The `/predict` handler of `server_old.py` (legacy server): same guard
order, no channel reversal in preprocessing, output-arity dispatch on the
prediction row, and a success body containing only the score. -/
def predictOld (decode : Bytes → Except String RGBImage)
    (resize : RGBImage → RGBImage) (model : Option ModelHandle)
    (req : PredictRequest) : HttpResponse :=
  match model with
  | none => ⟨500, [("error", .str "Model is not loaded!")]⟩
  | some m =>
    match req.filePart with
    | none => ⟨400, [("error", .str "No file part in the request")]⟩
    | some fp =>
      if fp.filename = "" then
        ⟨400, [("error", .str "No file selected for uploading")]⟩
      else
        match decode fp.content with
        | .error e => ⟨500, [("error", .str e)]⟩
        | .ok img =>
          match selectFakeProbability (m (preprocessOld resize img)) with
          | .error e => ⟨500, [("error", .str e)]⟩
          | .ok p => ⟨200, [("score", .int (computeScore p))]⟩

/-! ## Claim C1 -/

/-- C1: for every /predict request that reaches the inference step (model
loaded, file present with non-empty filename, decode succeeded) whose model
output is interpreted as a fake probability `p` with `0 ≤ p ≤ 1`, the
returned score is the truncation of `p * 100` to an integer (= its floor,
since `p * 100 ≥ 0`) and lies in [0, 100]. -/
theorem c1_predict_score (decode : Bytes → Except String RGBImage)
    (resize : RGBImage → RGBImage) (m : ModelHandle) (req : PredictRequest)
    (fp : FilePart) (img : RGBImage) (p : ℚ) (rest : List ℚ)
    (hreq : req.filePart = some fp) (hfn : fp.filename ≠ "")
    (hdec : decode fp.content = .ok img)
    (hm : m (preprocess resize img) = p :: rest)
    (hp0 : 0 ≤ p) (hp1 : p ≤ 1) :
    predict decode resize (some m) req
      = ⟨200, [("score", .int (computeScore p)), ("metrics", .emptyObj)]⟩
    ∧ computeScore p = ⌊p * 100⌋
    ∧ 0 ≤ computeScore p ∧ computeScore p ≤ 100 := by
  have h100 : (0 : ℚ) ≤ p * 100 := by positivity
  have hfloor : computeScore p = ⌊p * 100⌋ := by
    unfold computeScore intTrunc
    rw [if_pos h100]
  refine ⟨?_, hfloor, ?_, ?_⟩
  · simp [predict, hreq, hdec, hm, hfn, firstPrediction]
  · rw [hfloor]
    exact Int.floor_nonneg.mpr h100
  · rw [hfloor]
    have hle : p * 100 ≤ 100 := by nlinarith
    calc ⌊p * 100⌋ ≤ ⌊(100 : ℚ)⌋ := Int.floor_le_floor hle
      _ = 100 := by norm_num

/-- C1 witness: a concrete request with a model emitting probability 1/2
yields a 200 response with score `int(0.5 * 100) = 50`. -/
theorem c1_predict_score_witness :
    predict (fun _ => .ok (blackImage 1 1)) (fun _ => blackImage 256 256)
        (some (fun _ => [(1 : ℚ)/2])) ⟨some ⟨"a.png", [0]⟩⟩
      = ⟨200, [("score", .int (computeScore ((1 : ℚ)/2))), ("metrics", .emptyObj)]⟩
    ∧ computeScore ((1 : ℚ)/2) = ⌊((1 : ℚ)/2) * 100⌋
    ∧ 0 ≤ computeScore ((1 : ℚ)/2) ∧ computeScore ((1 : ℚ)/2) ≤ 100 :=
  c1_predict_score (fun _ => .ok (blackImage 1 1)) (fun _ => blackImage 256 256)
    (fun _ => [(1 : ℚ)/2]) ⟨some ⟨"a.png", [0]⟩⟩ ⟨"a.png", [0]⟩
    (blackImage 1 1) ((1 : ℚ)/2) [] rfl (by decide) rfl rfl
    (by norm_num) (by norm_num)

/-! ## Claim C2 -/

/-- C2 counterexample: the model-loaded guard precedes the missing-file
guard in `predict`, so when the model is not loaded a request with no
`file` part receives a 500, not a 400-class error — refuting the claim
that such requests never receive a 500-class error. -/
theorem c2_missing_file_counterexample :
    (predict (fun _ => .error "") (fun i => i) none ⟨none⟩).status = 500
    ∧ ¬ (400 ≤ (predict (fun _ => .error "") (fun i => i) none ⟨none⟩).status
         ∧ (predict (fun _ => .error "") (fun i => i) none ⟨none⟩).status < 500) := by
  constructor
  · rfl
  · decide

/-- C2 amended: provided the model handle is non-null, every /predict
request whose body has no `file` part or an empty filename receives status
400 (and hence not a 500-class error), in both the deployed and the legacy
server. -/
theorem c2_missing_file_amended (decode : Bytes → Except String RGBImage)
    (resize : RGBImage → RGBImage) (m : ModelHandle) (req : PredictRequest)
    (hbad : req.filePart = none
      ∨ ∃ fp, req.filePart = some fp ∧ fp.filename = "") :
    (predict decode resize (some m) req).status = 400
    ∧ (predictOld decode resize (some m) req).status = 400 := by
  rcases hbad with hnone | ⟨fp, hsome, hfn⟩
  · constructor
    · simp [predict, hnone]
    · simp [predictOld, hnone]
  · constructor
    · simp [predict, hsome, hfn]
    · simp [predictOld, hsome, hfn]

/-- C2 witness: a concrete request with a `file` part whose filename is
empty gets status 400 from both servers when the model is loaded. -/
theorem c2_missing_file_witness :
    (predict (fun _ => .error "") (fun i => i) (some (fun _ => [0]))
        ⟨some ⟨"", [1, 2]⟩⟩).status = 400
    ∧ (predictOld (fun _ => .error "") (fun i => i) (some (fun _ => [0]))
        ⟨some ⟨"", [1, 2]⟩⟩).status = 400 :=
  c2_missing_file_amended (fun _ => .error "") (fun i => i) (fun _ => [0])
    ⟨some ⟨"", [1, 2]⟩⟩ (Or.inr ⟨⟨"", [1, 2]⟩, rfl, rfl⟩)

/-! ## Claim C3 -/

/-- C3: when the model handle is null (load failed or weights missing at
startup), every /predict request — whatever its contents — receives a 500
response whose error message says the model is not loaded, in both servers.
The handle is fixed for the process lifetime, so this holds for every
request until restart. -/
theorem c3_model_not_loaded (decode : Bytes → Except String RGBImage)
    (resize : RGBImage → RGBImage) (req : PredictRequest) :
    predict decode resize none req
      = ⟨500, [("error", .str "AI Model is not loaded! Server startup failed.")]⟩
    ∧ predictOld decode resize none req
      = ⟨500, [("error", .str "Model is not loaded!")]⟩ :=
  ⟨rfl, rfl⟩

/-! ## Claim C4 -/

/-- C4: for every successfully decoded image, the deployed server's
preprocessing is exactly: resize to 256×256 (delegated to PIL), divide each
channel value by 255, reverse the channel order, and add a leading batch
axis — pointwise, entry `(b, i, j, c)` of the tensor is channel `2 - c` of
pixel `(i, j)` of the resized image divided by 255. In particular, whenever
the resizing of the all-black `h×w` image is the all-black 256×256 image
(true of every PIL resampling filter, whose weights are convex on constant
images), the preprocessed tensor is identically zero. -/
theorem c4_preprocess_black (h w : ℕ) (resize : RGBImage → RGBImage)
    (hres : resize (blackImage h w) = blackImage 256 256) :
    (∀ img b i j c, preprocess resize img b i j c
        = ((resize img).px i j (2 - c) : ℚ) / 255)
    ∧ preprocess resize (blackImage h w) = fun _ _ _ _ => (0 : ℚ) := by
  constructor
  · intro img b i j c
    rfl
  · funext b i j c
    simp only [preprocess, expandDims, reverseChannels, scaleTo01]
    rw [hres]
    simp [blackImage]

/-- C4 witness: a 512×512 all-black image preprocesses to the all-zero
tensor under a resize that maps it to the 256×256 all-black image. -/
theorem c4_preprocess_black_witness :
    preprocess (fun _ => blackImage 256 256) (blackImage 512 512)
      = fun _ _ _ _ => (0 : ℚ) :=
  (c4_preprocess_black 512 512 (fun _ => blackImage 256 256) rfl).2

/-! ## Claim C5 -/

/-- C5: the fake probability is determined by the output arity. In the
legacy server, a two-element prediction row yields its second element and a
one-element row yields its single element; in the deployed server, whose
architecture emits `meso4OutputUnits = 1` value, `prediction[0][0]` agrees
with the arity dispatch. Instantiated through the legacy handler: a model
returning `[r, f]` produces score `int(f * 100)` and a model returning
`[p]` produces score `int(p * 100)`. -/
theorem c5_output_arity (decode : Bytes → Except String RGBImage)
    (resize : RGBImage → RGBImage) (m : ModelHandle) (req : PredictRequest)
    (fp : FilePart) (img : RGBImage)
    (hreq : req.filePart = some fp) (hfn : fp.filename ≠ "")
    (hdec : decode fp.content = .ok img) :
    (∀ r f, m (preprocessOld resize img) = [r, f] →
      predictOld decode resize (some m) req
        = ⟨200, [("score", .int (computeScore f))]⟩)
    ∧ (∀ p, m (preprocessOld resize img) = [p] →
      predictOld decode resize (some m) req
        = ⟨200, [("score", .int (computeScore p))]⟩)
    ∧ (∀ pred : List ℚ, pred.length = meso4OutputUnits →
      firstPrediction pred = selectFakeProbability pred) := by
  refine ⟨?_, ?_, ?_⟩
  · intro r f hm
    simp [predictOld, hreq, hdec, hm, hfn, selectFakeProbability]
  · intro p hm
    simp [predictOld, hreq, hdec, hm, hfn, selectFakeProbability]
  · intro pred hlen
    match pred, hlen with
    | [p], _ => rfl

/-- C5 witness: with concrete models, the legacy handler scores the second
element of a two-element output (`[1/4, 3/4] ↦ 75`) and the sole element of
a one-element output, and `firstPrediction` agrees with the dispatch on a
singleton row. -/
theorem c5_output_arity_witness :
    (predictOld (fun _ => .ok (blackImage 1 1)) (fun _ => blackImage 256 256)
        (some (fun _ => [(1 : ℚ)/4, (3 : ℚ)/4])) ⟨some ⟨"b.png", [5]⟩⟩
      = ⟨200, [("score", .int (computeScore ((3 : ℚ)/4)))]⟩)
    ∧ firstPrediction [(9 : ℚ)/10] = selectFakeProbability [(9 : ℚ)/10] :=
  ⟨(c5_output_arity (fun _ => .ok (blackImage 1 1)) (fun _ => blackImage 256 256)
      (fun _ => [(1 : ℚ)/4, (3 : ℚ)/4]) ⟨some ⟨"b.png", [5]⟩⟩ ⟨"b.png", [5]⟩
      (blackImage 1 1) rfl (by decide) rfl).1 ((1 : ℚ)/4) ((3 : ℚ)/4) rfl,
   (c5_output_arity (fun _ => .ok (blackImage 1 1)) (fun _ => blackImage 256 256)
      (fun _ => [(1 : ℚ)/4, (3 : ℚ)/4]) ⟨some ⟨"b.png", [5]⟩⟩ ⟨"b.png", [5]⟩
      (blackImage 1 1) rfl (by decide) rfl).2.2 [(9 : ℚ)/10] rfl⟩

/-! ## Claim C8 -/

/-- C8 counterexample: the legacy server's success response
(`jsonify({'score': score})` in `server_old.py`) carries only the `score`
key — a successful (200) /predict response without a `metrics` key,
refuting the claim that every successful response has exactly the keys
`score` and `metrics`. -/
theorem c8_legacy_counterexample :
    (predictOld (fun _ => .ok (blackImage 1 1)) (fun _ => blackImage 256 256)
        (some (fun _ => [(1 : ℚ)/2])) ⟨some ⟨"c.png", [3]⟩⟩).status = 200
    ∧ ((predictOld (fun _ => .ok (blackImage 1 1)) (fun _ => blackImage 256 256)
        (some (fun _ => [(1 : ℚ)/2])) ⟨some ⟨"c.png", [3]⟩⟩).body.map Prod.fst)
      = ["score"] := by
  constructor <;> rfl

/-- C8 amended: in the deployed server (`server.py`), every response with
status 200 has body exactly `[("score", n), ("metrics", {})]` for some
integer `n`; and on the success path with a model output probability in
[0, 1] that integer lies in [0, 100]. The legacy server's success body has
only the `score` key. -/
theorem c8_response_shape_amended :
    (∀ (decode : Bytes → Except String RGBImage)
        (resize : RGBImage → RGBImage) (model : Option ModelHandle)
        (req : PredictRequest),
      (predict decode resize model req).status = 200 →
      ∃ n : ℤ, (predict decode resize model req).body
        = [("score", .int n), ("metrics", .emptyObj)])
    ∧ (∀ (decode : Bytes → Except String RGBImage)
        (resize : RGBImage → RGBImage) (m : ModelHandle)
        (req : PredictRequest) (fp : FilePart) (img : RGBImage)
        (p : ℚ) (rest : List ℚ),
      req.filePart = some fp → fp.filename ≠ "" →
      decode fp.content = .ok img →
      m (preprocess resize img) = p :: rest → 0 ≤ p → p ≤ 1 →
      (predict decode resize (some m) req).body
        = [("score", .int (computeScore p)), ("metrics", .emptyObj)]
      ∧ 0 ≤ computeScore p ∧ computeScore p ≤ 100) := by
  constructor
  · intro decode resize model req h200
    match hmod : model with
    | none => simp [predict] at h200
    | some m =>
      match hfp : req.filePart with
      | none => simp [predict, hfp] at h200
      | some fp =>
        by_cases hfn : fp.filename = ""
        · simp [predict, hfp, hfn] at h200
        · match hdec : decode fp.content with
          | .error e => simp [predict, hfp, hfn, hdec] at h200
          | .ok img =>
            match hm : m (preprocess resize img) with
            | [] => simp [predict, hfp, hfn, hdec, hm, firstPrediction] at h200
            | p :: rest =>
              exact ⟨computeScore p,
                by simp [predict, hfp, hfn, hdec, hm, firstPrediction]⟩
  · intro decode resize m req fp img p rest hreq hfn hdec hm hp0 hp1
    have h100 : (0 : ℚ) ≤ p * 100 := by positivity
    have hfloor : computeScore p = ⌊p * 100⌋ := by
      unfold computeScore intTrunc
      rw [if_pos h100]
    refine ⟨by simp [predict, hreq, hdec, hm, hfn, firstPrediction], ?_, ?_⟩
    · rw [hfloor]
      exact Int.floor_nonneg.mpr h100
    · rw [hfloor]
      have hle : p * 100 ≤ 100 := by nlinarith
      calc ⌊p * 100⌋ ≤ ⌊(100 : ℚ)⌋ := Int.floor_le_floor hle
        _ = 100 := by norm_num

/-- C8 witness: a concrete 200 response of the deployed server has exactly
the keys `score` and `metrics`, and the concrete success path with
probability 1/2 yields that exact body with a score in [0, 100]. -/
theorem c8_response_shape_witness :
    (∃ n : ℤ, (predict (fun _ => .ok (blackImage 1 1))
        (fun _ => blackImage 256 256) (some (fun _ => [(1 : ℚ)/2]))
        ⟨some ⟨"a.png", [0]⟩⟩).body
      = [("score", .int n), ("metrics", .emptyObj)])
    ∧ 0 ≤ computeScore ((1 : ℚ)/2) ∧ computeScore ((1 : ℚ)/2) ≤ 100 :=
  ⟨c8_response_shape_amended.1 (fun _ => .ok (blackImage 1 1))
      (fun _ => blackImage 256 256) (some (fun _ => [(1 : ℚ)/2]))
      ⟨some ⟨"a.png", [0]⟩⟩ rfl,
   (c8_response_shape_amended.2 (fun _ => .ok (blackImage 1 1))
      (fun _ => blackImage 256 256) (fun _ => [(1 : ℚ)/2])
      ⟨some ⟨"a.png", [0]⟩⟩ ⟨"a.png", [0]⟩ (blackImage 1 1) ((1 : ℚ)/2) []
      rfl (by decide) rfl rfl (by norm_num) (by norm_num)).2⟩

/-! ## Artifact fetcher data model -/

/-- The filesystem visible to the download scripts: a map from paths to
file contents. -/
structure FS where
  files : String → Option Bytes

/-- Writing a file (`open(filename, 'wb')` followed by the chunk writes):
creates or truncates the path, leaving every other path unchanged. -/
def FS.write (fs : FS) (p : String) (b : Bytes) : FS :=
  ⟨fun q => if q = p then some b else fs.files q⟩

/-- The behavior of one HTTP GET as the scripts observe it:
either the request raises before any body is streamed
(`requests.get` raising, or `r.raise_for_status()` on an error status),
or a stream with an advertised `content-length` (`0` when the header is
missing, per `int(r.headers.get('content-length', 0))`), the list of chunks
delivered by `iter_content` before the connection ends, and whether the
stream was cut short by a transport error (a further `RequestException`). -/
inductive NetResponse where
  | connectFailure
  | stream (contentLength : ℕ) (chunks : List Bytes) (interrupted : Bool)

/-- Termination status of a script routine: a clean boolean result, or an
uncaught exception escaping it. -/
inductive RunOutcome where
  | success
  | failure
  | crash (msg : String)
deriving DecidableEq, Repr

/-- The progress percentages printed by `download_file` in
`scripts/download_model.py`: per chunk, the running byte count is updated
and `downloaded / total_size * 100` is emitted only when `total_size > 0`. -/
def progressReports (total : ℕ) : ℕ → List Bytes → List ℚ
  | _, [] => []
  | downloaded, c :: rest =>
    let d := downloaded + c.length
    if 0 < total then ((d : ℚ) / (total : ℚ) * 100) :: progressReports total d rest
    else progressReports total d rest

/-- Models `download_file(url, filename)` of `scripts/download_model.py`: on a
connection failure the `except RequestException` branch returns `False`
with the file untouched (the `open` happens only after a successful GET);
otherwise the file is opened for writing, every delivered chunk is written,
progress is reported under the `total_size > 0` guard, and the result is
`True` unless the stream was interrupted (then the caught exception yields
`False`, the partial file remaining). -/
def downloadFile (net : NetResponse) (fs : FS) (filename : String) :
    Bool × FS × List ℚ :=
  match net with
  | .connectFailure => (false, fs, [])
  | .stream total chunks interrupted =>
    (!interrupted, fs.write filename chunks.flatten, progressReports total 0 chunks)

/-- Models `download_file(url, filename)` of `old/scripts/download_model_h5.py`:
identical control flow except that the progress computation
`progress = (downloaded / total_size) * 100` is NOT guarded, so when the
advertised size is 0 and at least one chunk arrives, a `ZeroDivisionError`
— which is not a `requests.exceptions.RequestException` — escapes after the
first chunk has been written. -/
def downloadFileOld (net : NetResponse) (fs : FS) (filename : String) :
    RunOutcome × FS :=
  match net with
  | .connectFailure => (.failure, fs)
  | .stream total chunks interrupted =>
    match total, chunks with
    | 0, c :: _ => (.crash "ZeroDivisionError: division by zero", fs.write filename c)
    | _, _ =>
      ((if interrupted then .failure else .success), fs.write filename chunks.flatten)

/-- Exit of a one-shot script: `sys.exit(main())` with `main`'s return
code, or an uncaught exception aborting the process. -/
inductive ScriptResult where
  | exit (code : ℤ)
  | crashed (msg : String)
deriving DecidableEq, Repr

/-- One run of a fetch script: its result, the filesystem afterwards, and
how many HTTP requests it performed. -/
structure FetchRun where
  result : ScriptResult
  fs : FS
  netRequests : ℕ

/-- The destination path of both fetch scripts
(`OUTPUT_FILENAME = "../Meso4_DF.h5"`, resolved with `os.path.abspath` in
the current script; a single fixed path either way). -/
def fetchOutputPath : String := "../Meso4_DF.h5"

/-- Models `main()` of `scripts/download_model.py`: if a file already exists at
the destination, print and return 0 without any network request; otherwise
run `download_file` (one GET) and return 0 on `True`, 1 on `False`. -/
def fetchMain (net : NetResponse) (fs : FS) : FetchRun :=
  if (fs.files fetchOutputPath).isSome then ⟨.exit 0, fs, 0⟩
  else
    let r := downloadFile net fs fetchOutputPath
    ⟨if r.1 then .exit 0 else .exit 1, r.2.1, 1⟩

/-- Models `main()` of `old/scripts/download_model_h5.py`: the same existence
short-circuit; a `ZeroDivisionError` escaping `download_file` aborts the
process. -/
def fetchMainOld (net : NetResponse) (fs : FS) : FetchRun :=
  if (fs.files fetchOutputPath).isSome then ⟨.exit 0, fs, 0⟩
  else
    match downloadFileOld net fs fetchOutputPath with
    | (.success, fs') => ⟨.exit 0, fs', 1⟩
    | (.failure, fs') => ⟨.exit 1, fs', 1⟩
    | (.crash msg, fs') => ⟨.crashed msg, fs', 1⟩

/-! ## Claim C6 -/

/-- C6: the fetcher is idempotent. If a file already exists at the
destination (whatever its contents), both fetch scripts perform zero
network requests, leave the whole filesystem (hence the file) unchanged and
exit 0; consequently, whenever a first call exits 0, a second call finds
the file present, exits 0 and performs zero network requests. -/
theorem c6_fetch_idempotent :
    (∀ (net : NetResponse) (fs : FS), (fs.files fetchOutputPath).isSome →
      fetchMain net fs = ⟨.exit 0, fs, 0⟩ ∧ fetchMainOld net fs = ⟨.exit 0, fs, 0⟩)
    ∧ (∀ (net1 net2 : NetResponse) (fs : FS),
      (fetchMain net1 fs).result = .exit 0 →
      fetchMain net2 (fetchMain net1 fs).fs
        = ⟨.exit 0, (fetchMain net1 fs).fs, 0⟩) := by
  constructor
  · intro net fs hex
    constructor
    · simp [fetchMain, hex]
    · simp [fetchMainOld, hex]
  · intro net1 net2 fs h0
    by_cases hex : (fs.files fetchOutputPath).isSome
    · have h1 : fetchMain net1 fs = ⟨.exit 0, fs, 0⟩ := by simp [fetchMain, hex]
      rw [h1]
      simp [fetchMain, hex]
    · match net1 with
      | .connectFailure =>
        exfalso
        simp [fetchMain, hex, downloadFile] at h0
      | .stream total chunks interrupted =>
        match interrupted with
        | true =>
          exfalso
          simp [fetchMain, hex, downloadFile] at h0
        | false =>
          have h1 : fetchMain (.stream total chunks false) fs
              = ⟨.exit 0, fs.write fetchOutputPath chunks.flatten, 1⟩ := by
            simp [fetchMain, hex, downloadFile]
          rw [h1]
          simp [fetchMain, FS.write]

/-- C6 witness: with the destination file present, a concrete run exits 0
with zero network requests and an unchanged filesystem, twice in a row. -/
theorem c6_fetch_idempotent_witness :
    (fetchMain .connectFailure ⟨fun _ => some [9]⟩
      = ⟨.exit 0, ⟨fun _ => some [9]⟩, 0⟩)
    ∧ (fetchMain (.stream 5 [[1]] false)
        (fetchMain .connectFailure ⟨fun _ => some [9]⟩).fs
      = ⟨.exit 0, (fetchMain .connectFailure ⟨fun _ => some [9]⟩).fs, 0⟩) :=
  ⟨(c6_fetch_idempotent.1 .connectFailure ⟨fun _ => some [9]⟩ rfl).1,
   c6_fetch_idempotent.2 .connectFailure (.stream 5 [[1]] false)
     ⟨fun _ => some [9]⟩ rfl⟩

/-! ## Claim C7 -/

/-- C7: when the HTTP GET itself fails before any body is streamed, both
`download_file` implementations return failure with the filesystem
untouched (the output file is opened only after a successful GET), and both
`main`s exit 1 with no file written at the destination. -/
theorem c7_unreachable_url (fs : FS) (hnone : fs.files fetchOutputPath = none) :
    (∀ filename, downloadFile .connectFailure fs filename = (false, fs, []))
    ∧ (∀ filename, downloadFileOld .connectFailure fs filename = (.failure, fs))
    ∧ fetchMain .connectFailure fs = ⟨.exit 1, fs, 1⟩
    ∧ fetchMainOld .connectFailure fs = ⟨.exit 1, fs, 1⟩
    ∧ (fetchMain .connectFailure fs).fs.files fetchOutputPath = none := by
  have hex : ¬ (fs.files fetchOutputPath).isSome = true := by simp [hnone]
  refine ⟨fun _ => rfl, fun _ => rfl, ?_, ?_, ?_⟩
  · simp [fetchMain, hex, downloadFile]
  · simp [fetchMainOld, hex, downloadFileOld]
  · simp [fetchMain, hex, downloadFile, hnone]

/-- C7 witness: on an empty filesystem, an unreachable URL leaves the
destination absent and both scripts report failure. -/
theorem c7_unreachable_url_witness :
    fetchMain .connectFailure ⟨fun _ => none⟩ = ⟨.exit 1, ⟨fun _ => none⟩, 1⟩
    ∧ (fetchMain .connectFailure ⟨fun _ => none⟩).fs.files fetchOutputPath
      = none :=
  ⟨(c7_unreachable_url ⟨fun _ => none⟩ rfl).2.2.1,
   (c7_unreachable_url ⟨fun _ => none⟩ rfl).2.2.2.2⟩

/-! ## Claim C9 -/

/-- C9 counterexample: in the legacy fetcher
(`old/scripts/download_model_h5.py`) the progress computation
`(downloaded / total_size) * 100` is not guarded, so a stream with no
advertised size (content-length 0) delivering one chunk makes
`download_file` raise an uncaught `ZeroDivisionError` instead of completing
with success — refuting the claim for that cited implementation. -/
theorem c9_zero_division_counterexample :
    (downloadFileOld (.stream 0 [[7]] false) ⟨fun _ => none⟩ fetchOutputPath).1
      = .crash "ZeroDivisionError: division by zero"
    ∧ (fetchMainOld (.stream 0 [[7]] false) ⟨fun _ => none⟩).result
      = .crashed "ZeroDivisionError: division by zero" := by
  constructor <;> rfl

/-- C9 amended: in the current fetcher (`scripts/download_model.py`), for
every stream whose advertised total size is 0 (content-length missing or
zero) and that is not interrupted, the download completes: all chunks are
written, the result is success, no progress percentage is ever computed
(the division is guarded by `total_size > 0`), and `main` exits 0. The
legacy fetcher instead raises an uncaught division-by-zero on the first
chunk of such a stream. -/
theorem c9_no_total_size_amended (fs : FS) (chunks : List Bytes)
    (hnone : fs.files fetchOutputPath = none) :
    downloadFile (.stream 0 chunks false) fs fetchOutputPath
      = (true, fs.write fetchOutputPath chunks.flatten, [])
    ∧ (∀ d, progressReports 0 d chunks = [])
    ∧ fetchMain (.stream 0 chunks false) fs
      = ⟨.exit 0, fs.write fetchOutputPath chunks.flatten, 1⟩ := by
  have hprog : ∀ (l : List Bytes) (d : ℕ), progressReports 0 d l = [] := by
    intro l
    induction l with
    | nil => intro d; rfl
    | cons c rest ih =>
      intro d
      simp [progressReports, ih]
  have hex : ¬ (fs.files fetchOutputPath).isSome = true := by simp [hnone]
  refine ⟨?_, hprog chunks, ?_⟩
  · simp [downloadFile, hprog]
  · simp [fetchMain, hex, downloadFile]

/-- C9 witness: a two-chunk stream with no advertised size completes
successfully with no progress reports under the current fetcher. -/
theorem c9_no_total_size_witness :
    downloadFile (.stream 0 [[1, 2], [3]] false) ⟨fun _ => none⟩ fetchOutputPath
      = (true, FS.write ⟨fun _ => none⟩ fetchOutputPath [1, 2, 3], [])
    ∧ fetchMain (.stream 0 [[1, 2], [3]] false) ⟨fun _ => none⟩
      = ⟨.exit 0, FS.write ⟨fun _ => none⟩ fetchOutputPath [1, 2, 3], 1⟩ :=
  ⟨(c9_no_total_size_amended ⟨fun _ => none⟩ [[1, 2], [3]] rfl).1,
   (c9_no_total_size_amended ⟨fun _ => none⟩ [[1, 2], [3]] rfl).2.2⟩

/-! ## Claim C10 -/

/-- The environment of one run of `scripts/setup_tflite_model.py`: whether
the imports at the top of the module succeed, and whether each of the three
guarded steps (Hugging Face download + `load_model`, TFLite conversion,
saving the `.tflite` file) succeeds. -/
structure ConvEnv where
  depsOk : Bool
  downloadOk : Bool
  convertOk : Bool
  saveOk : Bool

/-- The state of the output directory
(`../assets/models/efficientnet-b0-tflite`): whether it exists and which
file names it contains. -/
structure DirState where
  present : Bool
  contents : List String

/-- Models `os.makedirs(MODEL_DIR, exist_ok=True)`: ensures the directory exists
without touching its contents. -/
def makeDirs (d : DirState) : DirState :=
  ⟨true, d.contents⟩

/-- Models `main()` of `scripts/setup_tflite_model.py`: dependency re-check (the
`try` import block; it can only fail if the module-level imports had
failed, in which case `main` is never reached), then create the output
directory, then the three fallible steps, each returning 1 on failure; on
success `model.tflite` is written into the directory. No path removes the
directory or deletes its contents (the script never calls `rmtree`). -/
def setupTfliteMain (env : ConvEnv) (d : DirState) : ScriptResult × DirState :=
  if !env.depsOk then (.exit 1, d)
  else
    let d1 := makeDirs d
    if !env.downloadOk then (.exit 1, d1)
    else if !env.convertOk then (.exit 1, d1)
    else if !env.saveOk then (.exit 1, d1)
    else (.exit 0, ⟨true, if "model.tflite" ∈ d1.contents then d1.contents
                          else "model.tflite" :: d1.contents⟩)

/-- A whole run of `scripts/setup_tflite_model.py`: the module-level
`import tensorflow` / `from huggingface_hub import ...` execute before
`main`; if they fail the process dies with an `ImportError` and `main`
never runs. -/
def runSetupTflite (env : ConvEnv) (d : DirState) : ScriptResult × DirState :=
  if env.depsOk then setupTfliteMain env d else (.crashed "ImportError", d)

/-- C10: in every run of the TFLite converter that reaches `main` (the
module imports succeeded), the output directory is created before the
network download and exists after the run — including runs whose download,
conversion or save step fails with exit 1 — and no pre-existing file of the
output directory is ever deleted. -/
theorem c10_output_dir_persists (env : ConvEnv) (d : DirState)
    (hdeps : env.depsOk = true) :
    (runSetupTflite env d).2.present = true
    ∧ (∀ f ∈ d.contents, f ∈ (runSetupTflite env d).2.contents) := by
  have hrun : runSetupTflite env d = setupTfliteMain env d := by
    simp [runSetupTflite, hdeps]
  rw [hrun]
  unfold setupTfliteMain
  rw [hdeps]
  match env.downloadOk, env.convertOk, env.saveOk with
  | false, _, _ => exact ⟨rfl, fun f hf => hf⟩
  | true, false, _ => exact ⟨rfl, fun f hf => hf⟩
  | true, true, false => exact ⟨rfl, fun f hf => hf⟩
  | true, true, true =>
    refine ⟨rfl, fun f hf => ?_⟩
    by_cases hmem : "model.tflite" ∈ d.contents
    · simpa [makeDirs, hmem] using hf
    · simp [makeDirs, hmem]
      exact Or.inr hf

/-- C10 witness: a run whose download fails (exit 1) against a directory
that did not yet exist but carries a recorded file still ends with the
directory present and the file retained. -/
theorem c10_output_dir_persists_witness :
    (runSetupTflite ⟨true, false, true, true⟩ ⟨false, ["keep.txt"]⟩).2.present
      = true
    ∧ "keep.txt"
      ∈ (runSetupTflite ⟨true, false, true, true⟩ ⟨false, ["keep.txt"]⟩).2.contents :=
  ⟨(c10_output_dir_persists ⟨true, false, true, true⟩ ⟨false, ["keep.txt"]⟩ rfl).1,
   (c10_output_dir_persists ⟨true, false, true, true⟩ ⟨false, ["keep.txt"]⟩ rfl).2
     "keep.txt" (by simp)⟩
